import Mathlib

/-!
Verification of the recipe-costing engine of `precificador_doces`
(`src/main.py`, endpoint `create_receita` and its unit-conversion block).

Python floats are modelled as rationals (`ℚ`); a Python float division
raises `ZeroDivisionError` when the divisor is zero, which we model by an
explicit check returning `Except.error`.  FastAPI `HTTPException` values and
`ZeroDivisionError` are both ordinary exceptions caught by the
`except Exception` handler of `create_receita`, modelled by `PyExc`.
-/

/-- Python exceptions that can escape the costing loop of `create_receita`:
`HTTPException(status, detail)` and `ZeroDivisionError`. -/
inductive PyExc where
  | httpException (status : Nat) (detail : String)
  | zeroDivisionError
deriving DecidableEq

instance {ε α : Type} [DecidableEq ε] [DecidableEq α] :
    DecidableEq (Except ε α) := fun x y =>
  match x, y with
  | .ok a, .ok b =>
    if h : a = b then isTrue (by rw [h])
    else isFalse (fun hh => h (Except.ok.inj hh))
  | .error a, .error b =>
    if h : a = b then isTrue (by rw [h])
    else isFalse (fun hh => h (Except.error.inj hh))
  | .ok _, .error _ => isFalse (fun hh => Except.noConfusion hh)
  | .error _, .ok _ => isFalse (fun hh => Except.noConfusion hh)

/-- `str(e)` for the exceptions we model: Starlette renders an
`HTTPException` as `"{status_code}: {detail}"`; a float division by zero
renders as `"float division by zero"`. -/
def strOfExc : PyExc → String
  | .httpException s d => toString s ++ ": " ++ d
  | .zeroDivisionError => "float division by zero"

/-- Python float division: raises `ZeroDivisionError` when the divisor is
zero, otherwise returns the quotient. -/
def qdiv (a b : ℚ) : Except PyExc ℚ :=
  if b = 0 then Except.error PyExc.zeroDivisionError else Except.ok (a / b)

/-- An ingredient row as fetched in `create_receita`
(`SELECT amount, price, unit, density, nome FROM ingredientes WHERE id=?`). -/
structure Ingrediente where
  amount : ℚ
  price : ℚ
  unit : String
  density : ℚ
  nome : String
deriving DecidableEq

/-- One element of `ReceitaIn.ingredientes` (`ReceitaIngredienteIn`). -/
structure ReceitaIngredienteIn where
  ingrediente_id : Nat
  quantidade : ℚ
  unidade : String
deriving DecidableEq

/-- The request body of `POST /receitas` (`ReceitaIn`). -/
structure ReceitaIn where
  nome : String
  categoria : Option String
  rendimento : ℚ
  embalagem : ℚ
  margem : ℚ
  ingredientes : List ReceitaIngredienteIn
deriving DecidableEq

/-- The unit-conversion block of `create_receita` (src/main.py:182-192):
`conv = item.quantidade`; if the line's unit differs from the ingredient's
reference unit, the four handled pairs are ml→g (`* density`),
g→ml (`/ density`), unit→other (`* amount`), other→unit (`/ amount`);
any other pair keeps the original quantity
(`# Se conversão inválida, mantém a quantidade original`). -/
def convertQuantity (quantidade : ℚ) (unidade : String) (amount density : ℚ)
    (unit : String) : Except PyExc ℚ :=
  if unidade ≠ unit then
    if unidade = "ml" ∧ unit = "g" then Except.ok (quantidade * density)
    else if unidade = "g" ∧ unit = "ml" then qdiv quantidade density
    else if unidade = "unit" ∧ unit ≠ "unit" then Except.ok (quantidade * amount)
    else if unit = "unit" ∧ unidade ≠ "unit" then qdiv quantidade amount
    else Except.ok quantidade
  else Except.ok quantidade

/-- One line's cost (src/main.py:194): `custo_item = (conv / amount) * price`,
after converting the requested quantity to the reference unit. -/
def custoItem (quantidade : ℚ) (unidade : String) (ing : Ingrediente) :
    Except PyExc ℚ := do
  let conv ← convertQuantity quantidade unidade ing.amount ing.density ing.unit
  let c ← qdiv conv ing.amount
  Except.ok (c * ing.price)

/-- The `HTTPException(404, f"Ingrediente {id} não encontrado")` raised when a
recipe line's ingredient id is not in the catalog (src/main.py:177). -/
def notFoundExc (i : Nat) : PyExc :=
  PyExc.httpException 404 ("Ingrediente " ++ toString i ++ " não encontrado")

/-- The costing loop of `create_receita` (src/main.py:169-195): resolve each
line's ingredient, convert its quantity, accumulate `custo_item` into
`custo_total`.  A missing ingredient raises the 404 `HTTPException`;
a zero divisor raises `ZeroDivisionError`. -/
def computeCustoTotal (catalog : Nat → Option Ingrediente) :
    List ReceitaIngredienteIn → Except PyExc ℚ
  | [] => Except.ok 0
  | item :: rest =>
    match catalog item.ingrediente_id with
    | none => Except.error (notFoundExc item.ingrediente_id)
    | some ing => do
      let c ← custoItem item.quantidade item.unidade ing
      let t ← computeCustoTotal catalog rest
      Except.ok (c + t)

/-- The final pricing arithmetic of `create_receita` (src/main.py:204-206):
`total_com_embalagem = custo_total + embalagem`,
`preco_sugerido = total_com_embalagem * (1 + margem / 100)`,
`preco_por_unidade = preco_sugerido / max(rendimento, 1)`. -/
def costReceita (catalog : Nat → Option Ingrediente) (receita : ReceitaIn) :
    Except PyExc (ℚ × ℚ × ℚ) := do
  let s ← computeCustoTotal catalog receita.ingredientes
  let total := s + receita.embalagem
  let ps := total * (1 + receita.margem / 100)
  Except.ok (total, ps, ps / max receita.rendimento 1)

/-- Round a rational to the nearest integer, ties to even: Python's `round`. -/
def roundHalfEven (q : ℚ) : ℤ :=
  let n := ⌊q⌋
  if q - n < 1 / 2 then n
  else if q - n > 1 / 2 then n + 1
  else if n % 2 = 0 then n else n + 1

/-- Python's `round(x, d)`: round to `d` decimal places, ties to even. -/
def pyRound (d : Nat) (q : ℚ) : ℚ :=
  (roundHalfEven (q * 10 ^ d) : ℚ) / 10 ^ d

/-- A persisted row of the `receitas` table, after the final `UPDATE`
(src/main.py:162-165, 209-212). -/
structure ReceitaRow where
  id : Nat
  nome : String
  categoria : Option String
  rendimento : ℚ
  embalagem : ℚ
  margem : ℚ
  custo_total : ℚ
  preco_sugerido : ℚ
  preco_por_unidade : ℚ
deriving DecidableEq

/-- A persisted row of the `receita_ingredientes` table (src/main.py:198-201). -/
structure ReceitaIngredienteRow where
  receita_id : Nat
  ingrediente_id : Nat
  quantidade : ℚ
  unidade : String
deriving DecidableEq

/-- The caller-visible database state touched by `create_receita`. -/
structure DBState where
  receitas : List ReceitaRow
  receita_ingredientes : List ReceitaIngredienteRow
deriving DecidableEq

/-- The JSON body returned by `create_receita` (src/main.py:224-233): the
three monetary fields pass through `round(·, 2)`. -/
structure ReceitaResponse where
  id : Nat
  nome : String
  categoria : Option String
  rendimento : ℚ
  custo_total : ℚ
  preco_sugerido : ℚ
  preco_por_unidade : ℚ
  ingredientes : List ReceitaIngredienteIn
deriving DecidableEq

/-- `create_receita` (src/main.py:155-233) as the net effect of its
transaction: on success the committed state holds the new `receitas` row
(with the unrounded computed values written by the `UPDATE`) and the new
`receita_ingredientes` rows, and the response carries the values rounded to
2 decimal places; on any exception the transaction is rolled back — the
state is returned unchanged — and the exception is re-raised as
`HTTPException(500, "Erro ao salvar receita: " + str(e))`. -/
def create_receita (st : DBState) (catalog : Nat → Option Ingrediente)
    (receita : ReceitaIn) : DBState × Except PyExc ReceitaResponse :=
  let receita_id := st.receitas.length + 1
  match costReceita catalog receita with
  | .error e =>
    (st, Except.error (PyExc.httpException 500
      ("Erro ao salvar receita: " ++ strOfExc e)))
  | .ok (total, ps, ppu) =>
    ({ receitas := st.receitas ++
        [⟨receita_id, receita.nome, receita.categoria, receita.rendimento,
          receita.embalagem, receita.margem, total, ps, ppu⟩],
       receita_ingredientes := st.receita_ingredientes ++
        receita.ingredientes.map
          (fun i => ⟨receita_id, i.ingrediente_id, i.quantidade, i.unidade⟩) },
     Except.ok ⟨receita_id, receita.nome, receita.categoria,
       receita.rendimento, pyRound 2 total, pyRound 2 ps, pyRound 2 ppu,
       receita.ingredientes⟩)

/-- The catalog entry of the spec's Count scenario: reference unit Count
(`"unit"`), reference amount 1, unit price 0.15, density 15. -/
def ingCount : Ingrediente := ⟨1, 3/20, "unit", 15, "doce"⟩

/-- The catalog entry of the spec's Mass scenario: reference unit `"g"`,
reference amount 100, unit price 5.00, density 1.0. -/
def ingMass : Ingrediente := ⟨100, 5, "g", 1, "farinha"⟩

/-- A catalog holding `ingMass` under id 1. -/
def catalogMass : Nat → Option Ingrediente :=
  fun i => if i = 1 then some ingMass else none

/-- The spec's Mass scenario recipe: one line of 50 g of ingredient 1,
packaging 0.50, margin 50, yield 1. -/
def receitaMass : ReceitaIn := ⟨"r", none, 1, 1/2, 50, [⟨1, 50, "g"⟩]⟩

/-- An ingredient priced 1 per reference amount 3 g, so that a 1 g line
costs 1/3, a value with no finite decimal expansion. -/
def ingThird : Ingrediente := ⟨3, 1, "g", 1, "gelatina"⟩

/-- A catalog holding `ingThird` under id 1. -/
def catalogThird : Nat → Option Ingrediente :=
  fun i => if i = 1 then some ingThird else none

/-- A recipe of one 1 g line of `ingThird`, no packaging, margin 0, yield 1. -/
def receitaThird : ReceitaIn := ⟨"r", none, 1, 0, 0, [⟨1, 1, "g"⟩]⟩

/-- The empty database state. -/
def emptyDB : DBState := ⟨[], []⟩

/-- A recipe whose single line references id 2, absent from `catalogMass`. -/
def receitaMissing : ReceitaIn := ⟨"r", none, 1, 0, 50, [⟨2, 10, "g"⟩]⟩

theorem ok_bind {α β : Type} (a : α) (f : α → Except PyExc β) :
    (Except.ok a >>= f) = f a := rfl

theorem error_bind {α β : Type} (e : PyExc) (f : α → Except PyExc β) :
    ((Except.error e : Except PyExc α) >>= f) = Except.error e := rfl

/-- Splitting the costing loop over an append: the loop processes the prefix
first and adds the two partial sums. -/
theorem computeCustoTotal_append (catalog : Nat → Option Ingrediente)
    (l₁ l₂ : List ReceitaIngredienteIn) :
    computeCustoTotal catalog (l₁ ++ l₂) =
      (computeCustoTotal catalog l₁) >>= fun a =>
        (computeCustoTotal catalog l₂) >>= fun b => Except.ok (a + b) := by
  induction l₁ with
  | nil =>
    cases h₂ : computeCustoTotal catalog l₂ with
    | ok b => simp [computeCustoTotal, h₂, ok_bind]
    | error e => simp [computeCustoTotal, h₂, ok_bind, error_bind]
  | cons x xs ih =>
    simp only [List.cons_append, computeCustoTotal]
    cases hx : catalog x.ingrediente_id with
    | none => simp [error_bind]
    | some ing =>
      cases hc : custoItem x.quantidade x.unidade ing with
      | error e => simp [hc, error_bind, ok_bind]
      | ok c =>
        cases ha : computeCustoTotal catalog xs with
        | error e => simp [hc, ih, ha, error_bind, ok_bind]
        | ok a =>
          cases hb : computeCustoTotal catalog l₂ with
          | error e => simp [hc, ih, ha, hb, error_bind, ok_bind]
          | ok b => simp [hc, ih, ha, hb, ok_bind, add_assoc]

/-- Claim C7: converting a quantity from a unit to itself returns it
unchanged, for every density and reference amount — the density is never
consulted when the source and target units are equal. -/
theorem conversion_identity (q a d : ℚ) (u : String) :
    convertQuantity q u a d u = Except.ok q := by
  simp [convertQuantity]

/-- Claim C4: converting from Mass (`"g"`) to Volume (`"ml"`) divides by the
density, failing with the division-by-zero error exactly when the density is
zero (the zero test guards the division, so no infinity or NaN is ever
produced); converting from Volume to Mass multiplies by the density and
succeeds even at density zero, yielding 0. -/
theorem mass_volume_conversion (q a d : ℚ) :
    convertQuantity q "g" a d "ml" =
      (if d = 0 then Except.error PyExc.zeroDivisionError
       else Except.ok (q / d)) ∧
    convertQuantity q "ml" a d "g" = Except.ok (q * d) ∧
    convertQuantity q "ml" a 0 "g" = Except.ok 0 := by
  refine ⟨?_, ?_, ?_⟩ <;> simp +decide [convertQuantity, qdiv]

/-- Claim C1, counterexample: on the catalog entry with reference unit Count,
reference amount 1, unit price 0.15 and density 15, the code converts a line
of 30 g by dividing by the reference amount, not the density: the converted
quantity is 30 (not 2) and the line cost is 4.50 (not 0.30). -/
theorem count_conversion_cex :
    convertQuantity 30 "g" 1 15 "unit" = Except.ok 30 ∧ (30 : ℚ) ≠ 2 ∧
    custoItem 30 "g" ingCount = Except.ok (9/2) ∧ (9/2 : ℚ) ≠ 3/10 := by
  refine ⟨?_, by norm_num, ?_, by norm_num⟩
  · simp +decide [convertQuantity, qdiv]
  · simp +decide [custoItem, convertQuantity, qdiv, ingCount, ok_bind]
    norm_num

/-- Claim C1 as amended: Count↔continuous conversions use the ingredient's
reference amount, not its density: a line in Count with a non-Count
reference unit converts to `quantity * amount`, and a line in a non-Count
unit with a Count reference unit converts to `quantity / amount` (failing
only when the reference amount is zero); in the spec's Count scenario the
30 g line converts to 30 and costs 4.50. -/
theorem count_conversion_uses_amount (q a d : ℚ) (u : String)
    (hu : u ≠ "unit") (ha : a ≠ 0) :
    convertQuantity q "unit" a d u = Except.ok (q * a) ∧
    convertQuantity q u a d "unit" = Except.ok (q / a) ∧
    convertQuantity 30 "g" 1 15 "unit" = Except.ok 30 ∧
    custoItem 30 "g" ingCount = Except.ok (9/2) := by
  have hu' : ("unit" : String) ≠ u := Ne.symm hu
  refine ⟨?_, ?_, ?_, ?_⟩
  · simp +decide [convertQuantity, hu, hu']
  · simp +decide [convertQuantity, qdiv, hu, hu', ha]
  · simp +decide [convertQuantity, qdiv]
  · simp +decide [custoItem, convertQuantity, qdiv, ingCount, ok_bind]
    norm_num

/-- Witness for `count_conversion_uses_amount` at q = 7, a = 2, d = 0,
u = "g". -/
theorem count_conversion_uses_amount_witness :
    convertQuantity 7 "unit" 2 0 "g" = Except.ok 14 ∧
    convertQuantity 7 "g" 2 0 "unit" = Except.ok (7/2) := by
  have h := count_conversion_uses_amount 7 2 0 "g" (by decide) (by norm_num)
  exact ⟨by rw [h.1]; norm_num, h.2.1⟩

/-- Claim C5, counterexample: for a unit pair outside the handled
conversions (line unit `"kg"`, reference unit `"g"`), the code does not
fail: it keeps the original quantity and costs the line with it — the
conversion returns 10 for a 10 kg line and the line cost is
`(10 / 100) * 5 = 0.50`. -/
theorem unsupported_pair_cex :
    convertQuantity 10 "kg" 100 1 "g" = Except.ok 10 ∧
    custoItem 10 "kg" ⟨100, 5, "g", 1, "x"⟩ = Except.ok (1/2) := by
  constructor
  · simp +decide [convertQuantity, qdiv]
  · simp +decide [custoItem, convertQuantity, qdiv, ok_bind]
    norm_num

/-- Claim C5 as amended: for every unit pair that is none of the four
handled conversions, the conversion silently returns the original quantity
(per the code comment `mantém a quantidade original`) and the line is
costed with the unconverted quantity as `(quantity / amount) * price`;
no error is raised and no `Unsupported` or `IncompatibleUnits` failure
exists in the code. -/
theorem unsupported_pair_keeps_quantity (q a d p : ℚ) (unidade u : String)
    (h1 : unidade ≠ u) (h2 : ¬(unidade = "ml" ∧ u = "g"))
    (h3 : ¬(unidade = "g" ∧ u = "ml")) (h4 : unidade ≠ "unit")
    (h5 : u ≠ "unit") (ha : a ≠ 0) :
    convertQuantity q unidade a d u = Except.ok q ∧
    custoItem q unidade ⟨a, p, u, d, "i"⟩ = Except.ok (q / a * p) := by
  have hconv : convertQuantity q unidade a d u = Except.ok q := by
    simp [convertQuantity, h1, h2, h3, h4, h5]
  refine ⟨hconv, ?_⟩
  simp [custoItem, hconv, qdiv, ha, ok_bind]

/-- Witness for `unsupported_pair_keeps_quantity` at a 10 kg line against a
100 g reference priced 5 per 100 g. -/
theorem unsupported_pair_keeps_quantity_witness :
    convertQuantity 10 "kg" 100 1 "g" = Except.ok 10 ∧
    custoItem 10 "kg" ⟨100, 5, "g", 1, "i"⟩ = Except.ok (1/2) := by
  have h := unsupported_pair_keeps_quantity 10 100 1 5 "kg" "g"
    (by decide) (by decide) (by decide) (by decide) (by decide) (by norm_num)
  exact ⟨h.1, by rw [h.2]; norm_num⟩

/-- Claim C2: when every line resolves and converts, each line's cost is
`(converted_quantity / reference_amount) * unit_price`, the total cost is
the sum of line costs plus the packaging cost, the suggested price is
`total * (1 + margin/100)`, and the spec's Mass scenario yields total cost
3.00, suggested price 4.50 and price per yield unit 4.50. -/
theorem costing_formulas (catalog : Nat → Option Ingrediente)
    (receita : ReceitaIn) (s : ℚ)
    (h : computeCustoTotal catalog receita.ingredientes = Except.ok s) :
    costReceita catalog receita = Except.ok
      (s + receita.embalagem,
       (s + receita.embalagem) * (1 + receita.margem / 100),
       (s + receita.embalagem) * (1 + receita.margem / 100) /
         max receita.rendimento 1) ∧
    (∀ (q : ℚ) (u : String) (ing : Ingrediente) (conv : ℚ),
      convertQuantity q u ing.amount ing.density ing.unit = Except.ok conv →
      ing.amount ≠ 0 →
      custoItem q u ing = Except.ok (conv / ing.amount * ing.price)) ∧
    costReceita catalogMass receitaMass = Except.ok (3, 9/2, 9/2) := by
  refine ⟨by simp [costReceita, h, ok_bind], ?_, ?_⟩
  · intro q u ing conv hconv ha
    simp [custoItem, hconv, qdiv, ha, ok_bind]
  · simp +decide [costReceita, computeCustoTotal, catalogMass, ingMass,
      receitaMass, custoItem, convertQuantity, qdiv, ok_bind]
    norm_num

/-- Witness for `costing_formulas` on the Mass scenario itself. -/
theorem costing_formulas_witness :
    costReceita catalogMass receitaMass = Except.ok (3, 9/2, 9/2) := by
  have h : computeCustoTotal catalogMass receitaMass.ingredientes =
      Except.ok (5/2) := by
    simp +decide [computeCustoTotal, catalogMass, ingMass, receitaMass,
      custoItem, convertQuantity, qdiv, ok_bind]
    norm_num
  have hc := (costing_formulas catalogMass receitaMass (5/2) h).1
  rw [hc]
  norm_num [receitaMass]

/-- When the first failing step of the costing loop is the resolution of a
line's ingredient id, the whole loop returns that line's 404 exception. -/
theorem computeCustoTotal_miss (catalog : Nat → Option Ingrediente)
    (pre post : List ReceitaIngredienteIn) (item : ReceitaIngredienteIn)
    (c : ℚ) (hpre : computeCustoTotal catalog pre = Except.ok c)
    (hmiss : catalog item.ingrediente_id = none) :
    computeCustoTotal catalog (pre ++ item :: post) =
      Except.error (notFoundExc item.ingrediente_id) := by
  rw [computeCustoTotal_append, hpre, ok_bind]
  simp [computeCustoTotal, hmiss, error_bind]

/-- Claim C3: a recipe containing a line whose ingredient id does not
resolve (and whose earlier lines all cost without error) makes the whole
costing operation fail with the unknown-ingredient exception naming that
id: no costing result is produced for any line and the database state is
returned unchanged (the transaction is rolled back). -/
theorem unknown_ingredient_aborts (st : DBState)
    (catalog : Nat → Option Ingrediente) (receita : ReceitaIn)
    (pre post : List ReceitaIngredienteIn) (item : ReceitaIngredienteIn)
    (c : ℚ) (hsplit : receita.ingredientes = pre ++ item :: post)
    (hpre : computeCustoTotal catalog pre = Except.ok c)
    (hmiss : catalog item.ingrediente_id = none) :
    (create_receita st catalog receita).1 = st ∧
    (create_receita st catalog receita).2 = Except.error
      (PyExc.httpException 500
        ("Erro ao salvar receita: " ++ strOfExc (notFoundExc item.ingrediente_id))) := by
  have hct : computeCustoTotal catalog receita.ingredientes =
      Except.error (notFoundExc item.ingrediente_id) := by
    rw [hsplit]
    exact computeCustoTotal_miss catalog pre post item c hpre hmiss
  have hcost : costReceita catalog receita =
      Except.error (notFoundExc item.ingrediente_id) := by
    simp [costReceita, hct, error_bind]
  constructor <;> simp [create_receita, hcost]

/-- Witness for `unknown_ingredient_aborts`: costing `receitaMissing`
against `catalogMass` leaves the empty database unchanged and fails. -/
theorem unknown_ingredient_aborts_witness :
    (create_receita emptyDB catalogMass receitaMissing).1 = emptyDB ∧
    (create_receita emptyDB catalogMass receitaMissing).2 = Except.error
      (PyExc.httpException 500
        "Erro ao salvar receita: 404: Ingrediente 2 não encontrado") := by
  have h := unknown_ingredient_aborts emptyDB catalogMass receitaMissing
    [] [] ⟨2, 10, "g"⟩ 0 rfl rfl (by simp +decide [catalogMass])
  exact ⟨h.1, h.2⟩

/-- Claim C10: the 404 `HTTPException` raised inside the costing loop for
an unknown ingredient id is caught by the generic `except Exception`
handler and re-surfaced as a status-500 exception embedding the original
message; the caller never observes a 404 from `create_receita`. -/
theorem unknown_ingredient_surfaces_500 (st : DBState)
    (catalog : Nat → Option Ingrediente) (receita : ReceitaIn)
    (pre post : List ReceitaIngredienteIn) (item : ReceitaIngredienteIn)
    (c : ℚ) (hsplit : receita.ingredientes = pre ++ item :: post)
    (hpre : computeCustoTotal catalog pre = Except.ok c)
    (hmiss : catalog item.ingrediente_id = none) :
    (create_receita st catalog receita).2 = Except.error
      (PyExc.httpException 500
        ("Erro ao salvar receita: " ++ strOfExc (PyExc.httpException 404
          ("Ingrediente " ++ toString item.ingrediente_id ++ " não encontrado")))) ∧
    ∀ e, (create_receita st catalog receita).2 = Except.error e →
      ∀ d, e ≠ PyExc.httpException 404 d := by
  have hct : computeCustoTotal catalog receita.ingredientes =
      Except.error (notFoundExc item.ingrediente_id) := by
    rw [hsplit]
    exact computeCustoTotal_miss catalog pre post item c hpre hmiss
  have hcost : costReceita catalog receita =
      Except.error (notFoundExc item.ingrediente_id) := by
    simp [costReceita, hct, error_bind]
  have hres : (create_receita st catalog receita).2 = Except.error
      (PyExc.httpException 500
        ("Erro ao salvar receita: " ++ strOfExc (notFoundExc item.ingrediente_id))) := by
    simp [create_receita, hcost]
  refine ⟨hres, ?_⟩
  intro e he d
  have : Except.error (PyExc.httpException 500
      ("Erro ao salvar receita: " ++ strOfExc (notFoundExc item.ingrediente_id))) =
      (Except.error e : Except PyExc ReceitaResponse) := hres.symm.trans he
  cases this
  simp

/-- Witness for `unknown_ingredient_surfaces_500` on `receitaMissing`. -/
theorem unknown_ingredient_surfaces_500_witness :
    (create_receita emptyDB catalogMass receitaMissing).2 = Except.error
      (PyExc.httpException 500
        "Erro ao salvar receita: 404: Ingrediente 2 não encontrado") := by
  have h := unknown_ingredient_surfaces_500 emptyDB catalogMass receitaMissing
    [] [] ⟨2, 10, "g"⟩ 0 rfl rfl (by simp +decide [catalogMass])
  exact h.1

/-- Claim C6: the price per yield unit is the suggested price divided by
`max(rendimento, 1)`; that divisor is never zero, and a recipe with yield 0
or yield -5 produces exactly the same costing result — in particular the
same `preco_por_unidade` — as the same recipe with yield 1. -/
theorem yield_clamp (catalog : Nat → Option Ingrediente)
    (receita : ReceitaIn) (s : ℚ)
    (h : computeCustoTotal catalog receita.ingredientes = Except.ok s) :
    costReceita catalog receita = Except.ok
      (s + receita.embalagem,
       (s + receita.embalagem) * (1 + receita.margem / 100),
       (s + receita.embalagem) * (1 + receita.margem / 100) /
         max receita.rendimento 1) ∧
    max receita.rendimento 1 ≠ 0 ∧
    costReceita catalog { receita with rendimento := 0 } =
      costReceita catalog { receita with rendimento := 1 } ∧
    costReceita catalog { receita with rendimento := -5 } =
      costReceita catalog { receita with rendimento := 1 } := by
  have h0 : max (0 : ℚ) 1 = 1 := max_eq_right (by norm_num)
  have h1 : max (1 : ℚ) 1 = 1 := max_self 1
  have h5 : max (-5 : ℚ) 1 = 1 := max_eq_right (by norm_num)
  refine ⟨by simp [costReceita, h, ok_bind], ?_, ?_, ?_⟩
  · exact ne_of_gt (lt_of_lt_of_le zero_lt_one (le_max_right _ _))
  · simp [costReceita, h, ok_bind, h0, h1]
  · simp [costReceita, h, ok_bind, h5, h1]

/-- Witness for `yield_clamp` on the Mass scenario. -/
theorem yield_clamp_witness :
    costReceita catalogMass { receitaMass with rendimento := 0 } =
      costReceita catalogMass { receitaMass with rendimento := 1 } ∧
    costReceita catalogMass { receitaMass with rendimento := -5 } =
      costReceita catalogMass { receitaMass with rendimento := 1 } := by
  have h : computeCustoTotal catalogMass receitaMass.ingredientes =
      Except.ok (5/2) := by
    simp +decide [computeCustoTotal, catalogMass, ingMass, receitaMass,
      custoItem, convertQuantity, qdiv, ok_bind]
    norm_num
  have hy := yield_clamp catalogMass receitaMass (5/2) h
  exact ⟨hy.2.2.1, hy.2.2.2⟩

/-- Scaling the requested quantity scales the converted quantity by the
same factor, in every branch of the conversion. -/
theorem convertQuantity_smul (k q a d : ℚ) (u unit : String) (conv : ℚ)
    (h : convertQuantity q u a d unit = Except.ok conv) :
    convertQuantity (k * q) u a d unit = Except.ok (k * conv) := by
  unfold convertQuantity qdiv at h ⊢
  split_ifs at h ⊢ <;> simp_all <;> rw [← h] <;> ring

/-- Scaling the requested quantity scales a successfully computed line cost
by the same factor. -/
theorem custoItem_smul (k q : ℚ) (u : String) (ing : Ingrediente) (c : ℚ)
    (hc : custoItem q u ing = Except.ok c) :
    custoItem (k * q) u ing = Except.ok (k * c) := by
  unfold custoItem at hc ⊢
  cases hconv : convertQuantity q u ing.amount ing.density ing.unit with
  | error e => rw [hconv, error_bind] at hc; exact absurd hc (by simp)
  | ok conv =>
    rw [hconv, ok_bind] at hc
    rw [convertQuantity_smul k q ing.amount ing.density u ing.unit conv hconv,
      ok_bind]
    unfold qdiv at hc ⊢
    by_cases ha : ing.amount = 0
    · rw [if_pos ha, error_bind] at hc; exact absurd hc (by simp)
    · rw [if_neg ha, ok_bind] at hc ⊢
      simp only [Except.ok.injEq] at hc ⊢
      rw [← hc]; ring

/-- Claim C8: a line's cost contribution is proportional to its quantity —
doubling the quantity of one line, with its catalog entry and unit held
fixed, doubles that line's cost and adds exactly one more copy of it to the
recipe's total ingredient cost. -/
theorem line_cost_linearity (catalog : Nat → Option Ingrediente)
    (pre post : List ReceitaIngredienteIn) (item : ReceitaIngredienteIn)
    (ing : Ingrediente) (c t : ℚ)
    (hcat : catalog item.ingrediente_id = some ing)
    (hc : custoItem item.quantidade item.unidade ing = Except.ok c)
    (ht : computeCustoTotal catalog (pre ++ item :: post) = Except.ok t) :
    custoItem (2 * item.quantidade) item.unidade ing = Except.ok (2 * c) ∧
    computeCustoTotal catalog
      (pre ++ { item with quantidade := 2 * item.quantidade } :: post) =
      Except.ok (t + c) := by
  have hdouble := custoItem_smul 2 item.quantidade item.unidade ing c hc
  refine ⟨hdouble, ?_⟩
  rw [computeCustoTotal_append] at ht ⊢
  cases ha : computeCustoTotal catalog pre with
  | error e => rw [ha, error_bind] at ht; exact absurd ht (by simp)
  | ok a =>
    simp only [ha, ok_bind] at ht ⊢
    simp only [computeCustoTotal, hcat] at ht ⊢
    simp only [hc, ok_bind] at ht
    simp only [hdouble, ok_bind]
    cases hp : computeCustoTotal catalog post with
    | error e => simp only [hp, error_bind] at ht; exact absurd ht (by simp)
    | ok p =>
      simp only [hp, ok_bind, Except.ok.injEq] at ht ⊢
      rw [← ht]; ring

/-- Witness for `line_cost_linearity`: doubling the 50 g line of the Mass
scenario doubles its cost from 2.50 to 5. -/
theorem line_cost_linearity_witness :
    custoItem (2 * 50) "g" ingMass = Except.ok (2 * (5/2)) ∧
    computeCustoTotal catalogMass
      [⟨1, 2 * 50, "g"⟩] = Except.ok (5/2 + 5/2) := by
  have hcat : catalogMass 1 = some ingMass := by simp +decide [catalogMass]
  have hc : custoItem 50 "g" ingMass = Except.ok (5/2) := by
    simp +decide [custoItem, convertQuantity, qdiv, ingMass, ok_bind]
    norm_num
  have ht : computeCustoTotal catalogMass ([] ++ ⟨1, 50, "g"⟩ :: []) =
      Except.ok (5/2) := by
    simp +decide [computeCustoTotal, catalogMass, ingMass, custoItem,
      convertQuantity, qdiv, ok_bind]
    norm_num
  have h := line_cost_linearity catalogMass [] [] ⟨1, 50, "g"⟩ ingMass
    (5/2) (5/2) hcat hc ht
  exact ⟨h.1, h.2⟩

/-- Claim C9, counterexample: the stored cost fields are not rounded to 4
decimal places — a recipe whose ingredient cost is 1/3 stores exactly 1/3
in `custo_total`, and 1/3 differs from its own 4-decimal rounding. -/
theorem stored_fields_unrounded_cex :
    (create_receita emptyDB catalogThird receitaThird).1.receitas.map
      (fun r => r.custo_total) = [1/3] ∧
    pyRound 4 (1/3) ≠ (1/3 : ℚ) := by
  have hcost : costReceita catalogThird receitaThird =
      Except.ok (1/3, 1/3, 1/3) := by
    simp +decide [costReceita, computeCustoTotal, catalogThird, ingThird,
      receitaThird, custoItem, convertQuantity, qdiv, ok_bind]
  constructor
  · simp [create_receita, hcost, emptyDB]
  · norm_num [pyRound, roundHalfEven]

/-- Claim C9 as amended: the stored cost fields (`custo_total`,
`preco_sugerido`, `preco_por_unidade` written by the `UPDATE`) are persisted
unrounded, and the HTTP response returns all three monetary fields rounded
to 2 decimal places; the unrounded values exist only in the stored row, the
rounding happening at the response boundary. -/
theorem rounding_at_response_boundary (st : DBState)
    (catalog : Nat → Option Ingrediente) (receita : ReceitaIn)
    (total ps ppu : ℚ)
    (h : costReceita catalog receita = Except.ok (total, ps, ppu)) :
    (create_receita st catalog receita).1.receitas = st.receitas ++
      [⟨st.receitas.length + 1, receita.nome, receita.categoria,
        receita.rendimento, receita.embalagem, receita.margem,
        total, ps, ppu⟩] ∧
    (create_receita st catalog receita).2 = Except.ok
      ⟨st.receitas.length + 1, receita.nome, receita.categoria,
        receita.rendimento, pyRound 2 total, pyRound 2 ps, pyRound 2 ppu,
        receita.ingredientes⟩ := by
  constructor <;> simp [create_receita, h]

/-- Witness for `rounding_at_response_boundary` on the 1/3-cost recipe:
the stored row keeps 1/3 while the response carries `pyRound 2 (1/3)`. -/
theorem rounding_at_response_boundary_witness :
    (create_receita emptyDB catalogThird receitaThird).2 = Except.ok
      ⟨1, "r", none, 1, pyRound 2 (1/3), pyRound 2 (1/3), pyRound 2 (1/3),
        [⟨1, 1, "g"⟩]⟩ := by
  have hcost : costReceita catalogThird receitaThird =
      Except.ok (1/3, 1/3, 1/3) := by
    simp +decide [costReceita, computeCustoTotal, catalogThird, ingThird,
      receitaThird, custoItem, convertQuantity, qdiv, ok_bind]
  have h := rounding_at_response_boundary emptyDB catalogThird receitaThird
    (1/3) (1/3) (1/3) hcost
  simpa [emptyDB, receitaThird] using h.2
